import Mathlib

/-!
Verification development for the offline-first task sync backend.

The definitions below are a shallow embedding of the three source files:
`src/services/taskService.ts` (local mutation service), `src/services/syncService.ts`
(sync engine) and `src/routes/sync.ts` (remote conflict resolver / batch handler).
Timestamps are modelled as natural numbers (milliseconds); the SQLite tables
`tasks` and `sync_queue` are modelled as lists in insertion order; `uuidv4()` is
modelled by a counter threaded through the state (the source assumes ids are
globally unique opaque strings).
-/

namespace TaskSync

/-- Values of the `sync_status` column. -/
inductive SyncStatus where
  | pending
  | synced
  | error
deriving DecidableEq, Repr

/-- Sync-queue operation kinds. -/
inductive Op where
  | create
  | update
  | delete
deriving DecidableEq, Repr

/-- Per-item outcome status of the batch handler. -/
inductive ItemStatus where
  | success
  | conflict
  | error
deriving DecidableEq, Repr

/-- A row of the `tasks` table (the `Task` type of `types.ts`).
`title` is modelled as a plain string: `createTask` stores the empty string when
no title is supplied (the source stores the undefined value through the driver). -/
structure Task where
  id : String
  title : String
  description : String
  completed : Bool
  created_at : Nat
  updated_at : Nat
  is_deleted : Bool
  sync_status : SyncStatus
  last_synced_at : Option Nat
  server_id : Option String
deriving DecidableEq, Repr

/-- A `Partial<Task>` as used for mutation payloads: a field that is `none` is
absent from the object. Only the fields any code path reads are modelled. -/
structure TaskPatch where
  title : Option String := none
  description : Option String := none
  completed : Option Bool := none
  updated_at : Option Nat := none
  is_deleted : Option Bool := none
deriving DecidableEq, Repr

/-- A row of the `sync_queue` table (`SyncQueueItem` of `types.ts`). -/
structure SyncQueueItem where
  id : String
  task_id : String
  operation : Op
  data : TaskPatch
  created_at : Nat
  retry_count : Nat
  error_message : Option String := none
deriving DecidableEq, Repr

/-- One outcome of the batch handler (`BatchSyncResponse['processed_items']` element). -/
structure ProcessedItem where
  client_id : String
  server_id : String
  status : ItemStatus
  resolved_data : Option Task := none
  error : Option String := none
deriving DecidableEq, Repr

/-- Response body of `POST /batch`. -/
structure BatchSyncResponse where
  processed_items : List ProcessedItem
deriving DecidableEq, Repr

/-- One element of `SyncResult.errors`. -/
structure SyncError where
  task_id : String
  operation : Op
  error : String
  timestamp : Nat
deriving DecidableEq, Repr

/-- Result of one sync run. -/
structure SyncResult where
  success : Bool
  synced_items : Nat
  failed_items : Nat
  errors : List SyncError
deriving DecidableEq, Repr

/-- A database: the `tasks` table, the `sync_queue` table (both in insertion
order) and the uuid supply. The client and the server each own one. -/
structure State where
  tasks : List Task
  queue : List SyncQueueItem
  fresh : Nat
deriving DecidableEq, Repr

/-- Model of `uuidv4()`: the n-th id drawn from a state's supply. -/
def genId (n : Nat) : String := "u" ++ toString n

/-! ## TaskService (`src/services/taskService.ts`)

The same class backs the local mutation service and the remote resolver. -/

/-- Model of `SELECT * FROM tasks WHERE id = ?` (soft-deleted rows visible): `getTaskById`. -/
def getTaskById (tasks : List Task) (id : String) : Option Task :=
  tasks.find? (fun t => t.id == id)

/-- Model of `SELECT * FROM tasks WHERE id = ? AND is_deleted = 0`: `getTask`. -/
def getTask (tasks : List Task) (id : String) : Option Task :=
  tasks.find? (fun t => t.id == id && !t.is_deleted)

/-- The effect of `updateTask`'s SQL UPDATE on one row: the caller-supplied
fields overlaid on the stored row, with `updated_at` stamped to now and
`sync_status` forced to pending (`{ ...updates, updated_at: now, sync_status: 'pending' }`). -/
def applyPatch (now : Nat) (u : TaskPatch) (t : Task) : Task :=
  { t with
    title := u.title.getD t.title
    description := u.description.getD t.description
    completed := u.completed.getD t.completed
    is_deleted := u.is_deleted.getD t.is_deleted
    updated_at := now
    sync_status := SyncStatus.pending }

/-- Source `TaskService.createTask`: inserts a fresh record and enqueues a `create`
entry carrying the new record's title and description. Returns the stored record
(the source re-reads the row it just inserted). -/
def createTask (now : Nat) (taskData : TaskPatch) (st : State) : Task × State :=
  let t : Task :=
    { id := genId st.fresh
      title := taskData.title.getD ""
      description := taskData.description.getD ""
      completed := false
      created_at := now
      updated_at := now
      is_deleted := false
      sync_status := SyncStatus.pending
      last_synced_at := none
      server_id := none }
  let entry : SyncQueueItem :=
    { id := genId (st.fresh + 1)
      task_id := t.id
      operation := Op.create
      data := { title := some t.title, description := some t.description }
      created_at := now
      retry_count := 0 }
  (t, { tasks := st.tasks ++ [t], queue := st.queue ++ [entry], fresh := st.fresh + 2 })

/-- Source `TaskService.updateTask`: null when the id is absent (soft-deleted rows are
visible to the lookup); otherwise applies the patch to every row with that id,
enqueues an `update` entry carrying exactly the caller-supplied patch, and
returns `getTask` of the updated table - which excludes soft-deleted rows. -/
def updateTask (now : Nat) (id : String) (updates : TaskPatch) (st : State) :
    Option Task × State :=
  match getTaskById st.tasks id with
  | none => (none, st)
  | some _ =>
    let tasks' := st.tasks.map (fun t => if t.id == id then applyPatch now updates t else t)
    let entry : SyncQueueItem :=
      { id := genId st.fresh
        task_id := id
        operation := Op.update
        data := updates
        created_at := now
        retry_count := 0 }
    (getTask tasks' id,
      { tasks := tasks', queue := st.queue ++ [entry], fresh := st.fresh + 1 })

/-- The effect of `deleteTask`'s SQL UPDATE on one row. -/
def softDelete (now : Nat) (t : Task) : Task :=
  { t with is_deleted := true, updated_at := now, sync_status := SyncStatus.pending }

/-- Source `TaskService.deleteTask`: false when the id is absent; otherwise soft-deletes
the row and enqueues a `delete` entry with empty payload. -/
def deleteTask (now : Nat) (id : String) (st : State) : Bool × State :=
  match getTaskById st.tasks id with
  | none => (false, st)
  | some _ =>
    let tasks' := st.tasks.map (fun t => if t.id == id then softDelete now t else t)
    let entry : SyncQueueItem :=
      { id := genId st.fresh
        task_id := id
        operation := Op.delete
        data := {}
        created_at := now
        retry_count := 0 }
    (true, { tasks := tasks', queue := st.queue ++ [entry], fresh := st.fresh + 1 })

/-! ## Conflict resolver (`src/routes/sync.ts`, batch handler) -/

/-- The handler's timestamp comparison `new Date(data.updated_at!) > new Date(localTask.updated_at)`:
a missing payload `updated_at` yields an invalid date whose comparisons are all false. -/
def clientWins (data : TaskPatch) (serverUpdatedAt : Nat) : Bool :=
  match data.updated_at with
  | some t1 => serverUpdatedAt < t1
  | none => false

/-- One iteration of the batch handler's loop body (the try-block, which in the
model cannot throw): dispatch on the operation against the server's store. -/
def processItem (now : Nat) (srv : State) (item : SyncQueueItem) : ProcessedItem × State :=
  let localTask := getTaskById srv.tasks item.task_id
  match item.operation with
  | Op.create =>
    let (newTask, srv') := createTask now item.data srv
    ({ client_id := item.task_id, server_id := newTask.id, status := ItemStatus.success
       resolved_data := some newTask }, srv')
  | Op.update =>
    match localTask with
    | none =>
      let (newTask, srv') := createTask now item.data srv
      ({ client_id := item.task_id, server_id := newTask.id, status := ItemStatus.success
         resolved_data := some newTask }, srv')
    | some lt =>
      if clientWins item.data lt.updated_at then
        let (updatedTask, srv') := updateTask now item.task_id item.data srv
        ({ client_id := item.task_id, server_id := item.task_id, status := ItemStatus.success
           resolved_data := updatedTask }, srv')
      else
        ({ client_id := item.task_id, server_id := item.task_id, status := ItemStatus.conflict
           resolved_data := some lt }, srv)
  | Op.delete =>
    let srv' := if (getTaskById srv.tasks item.task_id).isSome
      then (deleteTask now item.task_id srv).2 else srv
    ({ client_id := item.task_id, server_id := item.task_id, status := ItemStatus.success }, srv')

/-- The batch handler's for-loop with its per-item try/catch, generic in the
per-item processor (whose store and network failures surface as exceptions):
a failed item is reported as an `error` outcome carrying the client id, and the
remaining items are still processed. -/
def runBatch (p : State → SyncQueueItem → Except String (ProcessedItem × State)) :
    State → List SyncQueueItem → List ProcessedItem × State
  | st, [] => ([], st)
  | st, item :: rest =>
    match p st item with
    | Except.ok (out, st') =>
      let (outs, st'') := runBatch p st' rest
      (out :: outs, st'')
    | Except.error msg =>
      let out : ProcessedItem :=
        { client_id := item.task_id, server_id := "", status := ItemStatus.error
          error := some msg }
      let (outs, st'') := runBatch p st rest
      (out :: outs, st'')

/-- Route `POST /batch` with the concrete (non-throwing) per-item processor. -/
def batchHandler (now : Nat) (st : State) (items : List SyncQueueItem) :
    List ProcessedItem × State :=
  runBatch (fun s i => Except.ok (processItem now s i)) st items

/-! ## Sync engine (`src/services/syncService.ts`) -/

/-- Insert one entry into a list sorted by `created_at`. -/
def insertByCreated (e : SyncQueueItem) : List SyncQueueItem → List SyncQueueItem
  | [] => [e]
  | x :: xs =>
    if e.created_at ≤ x.created_at then e :: x :: xs else x :: insertByCreated e xs

/-- Insertion sort by `created_at`, modelling `ORDER BY created_at ASC`. -/
def sortByCreated : List SyncQueueItem → List SyncQueueItem
  | [] => []
  | x :: xs => insertByCreated x (sortByCreated xs)

/-- Source `SyncService.getSyncQueueItems`: all queue rows ordered by `created_at` ascending. -/
def getSyncQueueItems (st : State) : List SyncQueueItem :=
  sortByCreated st.queue

/-- Fuel-driven worker for `chunks` (the fuel is the list length, so the fuel
never runs out; structural recursion keeps the function kernel-reducible). -/
def chunksF (fuel n : Nat) : List SyncQueueItem → List (List SyncQueueItem)
  | [] => []
  | x :: xs =>
    match fuel with
    | 0 => []
    | fuel' + 1 => (x :: xs.take (n - 1)) :: chunksF fuel' n (xs.drop (n - 1))

/-- The batching loop `for (i = 0; i < items.length; i += batchSize) slice(i, i + batchSize)`,
faithful for every batch size ≥ 1. -/
def chunks (n : Nat) (l : List SyncQueueItem) : List (List SyncQueueItem) :=
  chunksF l.length n l

/-- Overwrite the server-resolved fields onto a local row (`updateSyncStatus`'s
field copy; a falsy `server_id` is not copied). -/
def applyServerData (sd : Task) (t : Task) : Task :=
  { t with
    server_id := match sd.server_id with
      | some s => if s == "" then t.server_id else some s
      | none => t.server_id
    title := sd.title
    description := sd.description
    completed := sd.completed
    updated_at := sd.updated_at }

/-- Source `SyncService.updateSyncStatus` on the `'synced'` path: look the queue row up
by its entry id (a no-op when it is already gone), mark the task synced,
overwrite server-resolved fields when a snapshot is present, and delete the
queue row. -/
def updateSyncStatus (now : Nat) (queueItemId : String) (serverData : Option Task)
    (st : State) : State :=
  match st.queue.find? (fun q => q.id == queueItemId) with
  | none => st
  | some item =>
    let touch := fun (t : Task) =>
      if t.id == item.task_id then
        let t1 := { t with sync_status := SyncStatus.synced, last_synced_at := some now }
        match serverData with
        | none => t1
        | some sd => applyServerData sd t1
      else t
    { st with
      tasks := st.tasks.map touch
      queue := st.queue.filter (fun q => q.id != queueItemId) }

/-- Source `SyncService.handleSyncError`: bump the retry count from the in-memory item,
record the error message (prefixed on permanent failure), and on reaching the
threshold of 3 also mark the task's `sync_status` as error. The queue row is
never deleted here. -/
def handleSyncError (item : SyncQueueItem) (msg : String) (st : State) : State :=
  let n := item.retry_count + 1
  let note := if 3 ≤ n then "Permanent failure: " ++ msg else msg
  let queue' := st.queue.map (fun q =>
    if q.id == item.id then { q with retry_count := n, error_message := some note } else q)
  if 3 ≤ n then
    { st with
      tasks := st.tasks.map (fun t =>
        if t.id == item.task_id then { t with sync_status := SyncStatus.error } else t)
      queue := queue' }
  else
    { st with queue := queue' }

/-- The per-item body of both catch blocks in `sync`: invoke the retry handler
for each entry of the batch and append one error record per entry. -/
def failEntries (now : Nat) (msg : String) :
    List SyncQueueItem → State → SyncResult → State × SyncResult
  | [], st, res => (st, res)
  | e :: rest, st, res =>
    failEntries now msg rest (handleSyncError e msg st)
      { res with errors := res.errors ++
          [{ task_id := e.task_id, operation := e.operation, error := msg, timestamp := now }] }

/-- A catch block of `sync`'s batch loop: mark the run unsuccessful, count the
whole batch as failed, then handle each entry. -/
def failBatch (now : Nat) (msg : String) (batch : List SyncQueueItem) (st : State)
    (res : SyncResult) : State × SyncResult :=
  failEntries now msg batch st
    { res with success := false, failed_items := res.failed_items + batch.length }

/-- The message of the TypeError thrown by `batch.find(...)!.id` when a response
outcome matches no batch entry. -/
def findErrorMsg : String := "Cannot read property id of undefined"

/-- The inner loop of `sync` over a batch response's outcomes. The returned flag
records whether the loop threw (an outcome whose `client_id` matches no batch
entry dereferences undefined); the state and counters accumulated up to the
throw are kept, as the source's database writes already happened. -/
def applyOutcomes (now : Nat) (batch : List SyncQueueItem) :
    List ProcessedItem → State → SyncResult → State × SyncResult × Bool
  | [], st, res => (st, res, false)
  | p :: rest, st, res =>
    match batch.find? (fun it => it.task_id == p.client_id) with
    | none => (st, res, true)
    | some orig =>
      if p.status == ItemStatus.success || p.status == ItemStatus.conflict then
        applyOutcomes now batch rest (updateSyncStatus now orig.id p.resolved_data st)
          { res with synced_items := res.synced_items + 1 }
      else
        applyOutcomes now batch rest (handleSyncError orig (p.error.getD "") st)
          { res with
            failed_items := res.failed_items + 1
            errors := res.errors ++
              [{ task_id := p.client_id, operation := orig.operation
                 error := p.error.getD "Unknown error", timestamp := now }] }

/-- A transport: one `POST /batch` exchange against a remote of state type σ.
A transport-level failure (network unreachable, malformed response) is an
exception carrying its message. -/
def Transport (σ : Type) : Type :=
  σ → List SyncQueueItem → Except String (BatchSyncResponse × σ)

/-- The batch loop of `SyncService.sync`: transmit each batch sequentially; on a
transport failure fail the whole batch and continue; on a response apply the
outcomes, converting a thrown lookup error into a whole-batch failure. -/
def syncBatches (transport : Transport σ) (now : Nat) :
    List (List SyncQueueItem) → State → σ → SyncResult → SyncResult × State × σ
  | [], st, srv, res => (res, st, srv)
  | batch :: rest, st, srv, res =>
    match transport srv batch with
    | Except.error msg =>
      let (st', res') := failBatch now msg batch st res
      syncBatches transport now rest st' srv res'
    | Except.ok (resp, srv') =>
      match applyOutcomes now batch resp.processed_items st res with
      | (st', res', false) => syncBatches transport now rest st' srv' res'
      | (st', res', true) =>
        let (st'', res'') := failBatch now findErrorMsg batch st' res'
        syncBatches transport now rest st'' srv' res''

/-- The final `results.success = results.failed_items === 0` assignment. -/
def finishResult (res : SyncResult) : SyncResult :=
  { res with success := res.failed_items == 0 }

/-- The empty accumulator `sync` starts from. -/
def emptyResult : SyncResult :=
  { success := true, synced_items := 0, failed_items := 0, errors := [] }

/-- Source `SyncService.sync`: load the queue in `created_at` order, stop successfully
when it is empty, otherwise partition it into batches and run the batch loop. -/
def sync (transport : Transport σ) (batchSize now : Nat) (st : State) (srv : σ) :
    SyncResult × State × σ :=
  let items := getSyncQueueItems st
  if items.isEmpty then (emptyResult, st, srv)
  else
    let (res, st', srv') := syncBatches transport now (chunks batchSize items) st srv emptyResult
    (finishResult res, st', srv')

/-- The deployed transport: a successful HTTP exchange with the batch handler
of `src/routes/sync.ts` (the remote evaluates at its own clock `snow`). -/
def transportOk (snow : Nat) : Transport State := fun srv items =>
  let (outs, srv') := batchHandler snow srv items
  Except.ok ({ processed_items := outs }, srv')

/-- One failed delivery attempt for the queue entry `qid`, as a sync run
performs it: the entry is re-read from the queue (carrying its current
`retry_count`) and handed to the retry handler. -/
def failEntry (st : State) (qid msg : String) : State :=
  match st.queue.find? (fun q => q.id == qid) with
  | none => st
  | some e => handleSyncError e msg st

/-- How `handleSyncError` rewrites a matching queue row for the failed
in-memory item: the retry count comes from the item, the rest from the row. -/
def bumpRow (item : SyncQueueItem) (msg : String) (q : SyncQueueItem) : SyncQueueItem :=
  { q with
    retry_count := item.retry_count + 1
    error_message := some (if 3 ≤ item.retry_count + 1 then "Permanent failure: " ++ msg else msg) }

/-- The queue row rewritten by `handleSyncError` for the failed in-memory item. -/
def bumped (e : SyncQueueItem) (msg : String) : SyncQueueItem :=
  bumpRow e msg e

/-! ## Helper lemmas -/

/-- Updating exactly the rows a predicate selects moves `find?` through the map,
provided the update preserves the predicate. -/
lemma find?_map_if_pos {α : Type} (c : α → Bool) (f : α → α) (h : ∀ a, c (f a) = c a)
    (l : List α) (e : α) (he : l.find? c = some e) :
    (l.map (fun a => if c a then f a else a)).find? c = some (f e) := by
  induction l with
  | nil => simp at he
  | cons x xs ih =>
    cases hx : c x with
    | true =>
      simp only [List.find?_cons, hx] at he
      simp only [Option.some.injEq] at he
      subst he
      simp [List.find?_cons, hx, h]
    | false =>
      simp only [List.find?_cons, hx] at he
      simp only [List.map_cons, hx, if_false, Bool.false_eq_true, List.find?_cons]
      exact ih he

/-- Updating only rows a disjoint predicate selects leaves `find?` untouched. -/
lemma find?_map_if_ne {α : Type} (c d : α → Bool) (f : α → α)
    (hcf : ∀ a, c (f a) = c a) (hcd : ∀ a, c a = true → d a = false)
    (l : List α) :
    (l.map (fun a => if d a then f a else a)).find? c = l.find? c := by
  induction l with
  | nil => simp
  | cons x xs ih =>
    cases hx : c x with
    | true =>
      have hdx : d x = false := hcd x hx
      simp [List.find?_cons, hdx, hx]
    | false =>
      cases hdx : d x with
      | true => simp [List.find?_cons, hdx, hx, hcf, ih]
      | false => simp [List.find?_cons, hdx, hx, ih]

/-- Mapping a function that fixes every element of a list is the identity. -/
lemma map_id_of_eq {α : Type} (l : List α) (f : α → α) (h : ∀ a ∈ l, f a = a) :
    l.map f = l := by
  induction l with
  | nil => rfl
  | cons x xs ih =>
    simp only [List.map_cons, h x (by simp)]
    rw [ih (fun a ha => h a (by simp [ha]))]

/-- Lookup `getTask` finds nothing when no row carries the id. -/
lemma getTask_none_of_id_ne (tasks : List Task) (id : String)
    (h : ∀ t ∈ tasks, (t.id == id) = false) :
    getTask tasks id = none := by
  induction tasks with
  | nil => rfl
  | cons x xs ih =>
    unfold getTask at ih ⊢
    rw [List.find?_cons]
    have hx := h x (by simp)
    simp only [hx, Bool.false_and]
    exact ih (fun t ht => h t (by simp [ht]))

/-- With unique ids, `getTask` after an id-preserving in-place update of the row
found by `getTaskById` returns the updated row, unless it is now soft-deleted. -/
lemma getTask_map_update (tasks : List Task) (id : String) (f : Task → Task)
    (hf : ∀ t, (f t).id = t.id) (t0 : Task)
    (hnd : (tasks.map (fun t => t.id)).Nodup)
    (hfind : getTaskById tasks id = some t0) :
    getTask (tasks.map (fun t => if t.id == id then f t else t)) id
      = if (f t0).is_deleted then none else some (f t0) := by
  induction tasks with
  | nil => simp [getTaskById] at hfind
  | cons x xs ih =>
    simp only [List.map_cons, List.nodup_cons, List.mem_map] at hnd
    unfold getTaskById at hfind
    cases hx : (x.id == id) with
    | true =>
      simp only [List.find?_cons, hx] at hfind
      simp only [Option.some.injEq] at hfind
      subst hfind
      have hxid : x.id = id := by simpa using hx
      have hxs : ∀ t ∈ xs, (t.id == id) = false := by
        intro t ht
        have hne : t.id ≠ x.id := fun hcontra => hnd.1 ⟨t, ht, hcontra⟩
        rw [hxid] at hne
        simpa using hne
      have hmap : xs.map (fun t => if t.id == id then f t else t) = xs :=
        map_id_of_eq xs _ (fun t ht => by simp [hxs t ht])
      simp only [List.map_cons, hx, if_true, hmap]
      unfold getTask
      rw [List.find?_cons]
      have hfid : ((f x).id == id) = true := by rw [hf]; exact hx
      cases hdel : (f x).is_deleted with
      | true =>
        simp only [hfid, hdel, Bool.not_true, Bool.and_false, if_true]
        simpa [getTask] using getTask_none_of_id_ne xs id hxs
      | false =>
        simp [hfid, hdel]
    | false =>
      simp only [List.find?_cons, hx] at hfind
      simp only [List.map_cons, hx, if_false, Bool.false_eq_true]
      unfold getTask
      rw [List.find?_cons]
      simp only [hx, Bool.false_and]
      exact ih hnd.2 hfind

/-- Both branches of `handleSyncError` rewrite the queue the same way. -/
lemma handleSyncError_queue (item : SyncQueueItem) (msg : String) (st : State) :
    (handleSyncError item msg st).queue = st.queue.map (fun q =>
      if q.id == item.id then bumpRow item msg q else q) := by
  unfold handleSyncError bumpRow
  by_cases h : 3 ≤ item.retry_count + 1 <;> simp [h]

/-- On the third failure `handleSyncError` marks the task as permanently failed. -/
lemma handleSyncError_tasks_perm (item : SyncQueueItem) (msg : String) (st : State)
    (h : 3 ≤ item.retry_count + 1) :
    (handleSyncError item msg st).tasks = st.tasks.map (fun t =>
      if t.id == item.task_id then { t with sync_status := SyncStatus.error } else t) := by
  unfold handleSyncError
  simp [h]

/-- Unfolding `failEntry` hands the re-read entry to the retry handler. -/
lemma failEntry_of_find (st : State) (qid msg : String) (e : SyncQueueItem)
    (he : st.queue.find? (fun q => q.id == qid) = some e) :
    failEntry st qid msg = handleSyncError e msg st := by
  unfold failEntry
  rw [he]

/-- One failed delivery rewrites the entry's queue row to its bumped form. -/
lemma failEntry_step (st : State) (qid msg : String) (e : SyncQueueItem)
    (he : st.queue.find? (fun q => q.id == qid) = some e) :
    (failEntry st qid msg).queue.find? (fun q => q.id == qid) = some (bumped e msg) := by
  have hid := List.find?_some he
  have hid' : e.id = qid := by simpa using hid
  unfold failEntry
  rw [he, handleSyncError_queue, ← hid']
  exact find?_map_if_pos (fun q => q.id == e.id) (bumpRow e msg)
    (fun a => rfl) st.queue e (by rw [hid']; exact he)

/-- Insertion `insertByCreated` inserts, up to permutation. -/
lemma insertByCreated_perm (e : SyncQueueItem) (l : List SyncQueueItem) :
    (insertByCreated e l).Perm (e :: l) := by
  induction l with
  | nil => exact List.Perm.refl _
  | cons x xs ih =>
    unfold insertByCreated
    by_cases h : e.created_at ≤ x.created_at
    · rw [if_pos h]
    · rw [if_neg h]
      exact (ih.cons x).trans (List.Perm.swap e x xs)

/-- The queue load is a permutation of the stored queue. -/
lemma sortByCreated_perm (l : List SyncQueueItem) : (sortByCreated l).Perm l := by
  induction l with
  | nil => exact List.Perm.refl _
  | cons x xs ih => exact (insertByCreated_perm x (sortByCreated xs)).trans (ih.cons x)

/-- Insertion preserves sortedness by `created_at`. -/
lemma insertByCreated_pairwise (e : SyncQueueItem) (l : List SyncQueueItem)
    (h : l.Pairwise (fun a b => a.created_at ≤ b.created_at)) :
    (insertByCreated e l).Pairwise (fun a b => a.created_at ≤ b.created_at) := by
  induction l with
  | nil => simp [insertByCreated]
  | cons x xs ih =>
    rw [List.pairwise_cons] at h
    unfold insertByCreated
    by_cases hle : e.created_at ≤ x.created_at
    · rw [if_pos hle, List.pairwise_cons]
      refine ⟨?_, List.pairwise_cons.mpr h⟩
      intro b hb
      rcases List.mem_cons.mp hb with rfl | hb'
      · exact hle
      · exact Nat.le_trans hle (h.1 b hb')
    · rw [if_neg hle, List.pairwise_cons]
      refine ⟨?_, ih h.2⟩
      intro b hb
      have hb' : b ∈ e :: xs := (insertByCreated_perm e xs).mem_iff.mp hb
      rcases List.mem_cons.mp hb' with rfl | hb''
      · exact Nat.le_of_lt (Nat.lt_of_not_le hle)
      · exact h.1 b hb''

/-- The queue load is sorted by `created_at` ascending. -/
lemma sortByCreated_pairwise (l : List SyncQueueItem) :
    (sortByCreated l).Pairwise (fun a b => a.created_at ≤ b.created_at) := by
  induction l with
  | nil => simp [sortByCreated]
  | cons x xs ih => exact insertByCreated_pairwise x _ ih

/-- The fuel never runs out when it bounds the list length: concatenating the
batches gives back the loaded queue. -/
lemma chunksF_flatten (n : Nat) :
    ∀ (fuel : Nat) (l : List SyncQueueItem), l.length ≤ fuel → (chunksF fuel n l).flatten = l := by
  intro fuel
  induction fuel with
  | zero =>
    intro l hl
    cases l with
    | nil => rfl
    | cons x xs => simp at hl
  | succ f ih =>
    intro l hl
    cases l with
    | nil => rfl
    | cons x xs =>
      simp only [chunksF, List.flatten_cons]
      rw [ih (xs.drop (n - 1)) (by simp only [List.length_drop]; simp at hl; omega)]
      simp [List.take_append_drop]

/-- Transmitting the batches in order transmits exactly the loaded queue. -/
lemma chunks_flatten (n : Nat) (l : List SyncQueueItem) : (chunks n l).flatten = l :=
  chunksF_flatten n l.length l (Nat.le_refl _)

/-- Handling a failed batch leaves queue rows with ids outside the batch alone. -/
lemma failEntries_queue_other (now : Nat) (msg : String) :
    ∀ (l : List SyncQueueItem) (st : State) (res : SyncResult) (qid : String),
      (∀ e' ∈ l, e'.id ≠ qid) →
      (failEntries now msg l st res).1.queue.find? (fun q => q.id == qid)
        = st.queue.find? (fun q => q.id == qid) := by
  intro l
  induction l with
  | nil => intro st res qid _; rfl
  | cons e0 rest ih =>
    intro st res qid h
    simp only [failEntries]
    rw [ih _ _ qid (fun e' he' => h e' (by simp [he']))]
    rw [handleSyncError_queue]
    exact find?_map_if_ne (fun q => q.id == qid) (fun q => q.id == e0.id) (bumpRow e0 msg)
      (fun a => rfl)
      (fun a ha => by
        have : a.id = qid := by simpa using ha
        have hne : e0.id ≠ qid := h e0 (by simp)
        simp [this]
        exact fun hcontra => hne hcontra.symm)
      st.queue

/-- Every entry of a failed batch stays queued with its retry count bumped by one. -/
lemma failEntries_retain (now : Nat) (msg : String) :
    ∀ (batch : List SyncQueueItem) (st : State) (res : SyncResult),
      (batch.map (fun e => e.id)).Nodup →
      (∀ e ∈ batch, st.queue.find? (fun q => q.id == e.id) = some e) →
      ∀ e ∈ batch,
        (failEntries now msg batch st res).1.queue.find? (fun q => q.id == e.id)
          = some (bumped e msg) := by
  intro batch
  induction batch with
  | nil => intro st res _ _ e he; simp at he
  | cons e0 rest ih =>
    intro st res hnd hmem e he
    simp only [List.map_cons, List.nodup_cons, List.mem_map] at hnd
    simp only [failEntries]
    rcases List.mem_cons.mp he with rfl | he'
    · rw [failEntries_queue_other now msg rest _ _ e.id
        (fun e' he'' => fun hcontra => hnd.1 ⟨e', he'', hcontra⟩)]
      rw [handleSyncError_queue]
      exact find?_map_if_pos (fun q => q.id == e.id) (bumpRow e msg)
        (fun a => rfl) st.queue e (hmem e (by simp))
    · refine ih (handleSyncError e0 msg st) _ hnd.2 ?_ e he'
      intro e' he''
      have hne : e'.id ≠ e0.id := by
        intro hcontra
        exact hnd.1 ⟨e', he'', hcontra⟩
      rw [handleSyncError_queue]
      rw [find?_map_if_ne (fun q => q.id == e'.id) (fun q => q.id == e0.id) (bumpRow e0 msg)
        (fun a => rfl)
        (fun a ha => by
          have : a.id = e'.id := by simpa using ha
          simp [this]
          exact hne)
        st.queue]
      exact hmem e' (by simp [he''])

/-- Folding `failEntries` only appends error records; the failure counter is untouched. -/
lemma failEntries_failed (now : Nat) (msg : String) :
    ∀ (l : List SyncQueueItem) (st : State) (res : SyncResult),
      (failEntries now msg l st res).2.failed_items = res.failed_items := by
  intro l
  induction l with
  | nil => intro st res; rfl
  | cons e rest ih => intro st res; simp only [failEntries]; rw [ih]

/-- The outcome loop never decreases the failure counter. -/
lemma applyOutcomes_failed_le (now : Nat) (batch : List SyncQueueItem) :
    ∀ (ps : List ProcessedItem) (st : State) (res : SyncResult),
      res.failed_items ≤ (applyOutcomes now batch ps st res).2.1.failed_items := by
  intro ps
  induction ps with
  | nil => intro st res; exact Nat.le_refl _
  | cons p rest ih =>
    intro st res
    simp only [applyOutcomes]
    cases batch.find? (fun it => it.task_id == p.client_id) with
    | none => exact Nat.le_refl _
    | some orig =>
      by_cases hs : (p.status == ItemStatus.success || p.status == ItemStatus.conflict) = true
      · simp only [hs, if_true]
        exact ih (updateSyncStatus now orig.id p.resolved_data st)
          { res with synced_items := res.synced_items + 1 }
      · simp only [hs, if_false, Bool.false_eq_true]
        have h2 := ih (handleSyncError orig (p.error.getD "") st)
          { res with
            failed_items := res.failed_items + 1
            errors := res.errors ++
              [{ task_id := p.client_id, operation := orig.operation
                 error := p.error.getD "Unknown error", timestamp := now }] }
        exact Nat.le_trans (Nat.le_succ res.failed_items) h2

/-- The batch loop never decreases the failure counter. -/
lemma syncBatches_failed_le {σ : Type} (transport : Transport σ) (now : Nat) :
    ∀ (bs : List (List SyncQueueItem)) (st : State) (srv : σ) (res : SyncResult),
      res.failed_items ≤ (syncBatches transport now bs st srv res).1.failed_items := by
  intro bs
  induction bs with
  | nil => intro st srv res; exact Nat.le_refl _
  | cons batch rest ih =>
    intro st srv res
    simp only [syncBatches]
    cases htr : transport srv batch with
    | error msg =>
      refine Nat.le_trans ?_ (ih _ _ _)
      unfold failBatch
      rw [failEntries_failed]
      exact Nat.le_add_right _ _
    | ok pair =>
      rcases pair with ⟨resp, srv'⟩
      dsimp only
      rcases hap : applyOutcomes now batch resp.processed_items st res with ⟨st', res', b⟩
      have hle : res.failed_items ≤ res'.failed_items := by
        have := applyOutcomes_failed_le now batch resp.processed_items st res
        rw [hap] at this
        exact this
      cases b with
      | false => exact Nat.le_trans hle (ih _ _ _)
      | true =>
        refine Nat.le_trans hle (Nat.le_trans ?_ (ih _ _ _))
        unfold failBatch
        rw [failEntries_failed]
        exact Nat.le_add_right _ _

/-- The batch handler returns exactly one outcome per submitted item. -/
lemma runBatch_length (p : State → SyncQueueItem → Except String (ProcessedItem × State)) :
    ∀ (items : List SyncQueueItem) (st : State),
      (runBatch p st items).1.length = items.length := by
  intro items
  induction items with
  | nil => intro st; rfl
  | cons item rest ih =>
    intro st
    simp only [runBatch]
    cases p st item with
    | ok pair => simp [ih]
    | error msg => simp [ih]

/-- Every outcome built by the resolver carries the client's record id. -/
lemma processItem_client_id (now : Nat) (st : State) (item : SyncQueueItem) :
    (processItem now st item).1.client_id = item.task_id := by
  unfold processItem
  cases item.operation with
  | create => rfl
  | update =>
    cases getTaskById st.tasks item.task_id with
    | none => rfl
    | some lt =>
      by_cases h : clientWins item.data lt.updated_at = true <;> simp [h]
  | delete => rfl

/-- The i-th outcome of the concrete batch handler answers the i-th item. -/
lemma batchHandler_client_id (now : Nat) :
    ∀ (items : List SyncQueueItem) (st : State) (i : Nat)
      (hi : i < items.length) (hi2 : i < (batchHandler now st items).1.length),
      ((batchHandler now st items).1.get ⟨i, hi2⟩).client_id
        = (items.get ⟨i, hi⟩).task_id := by
  intro items
  induction items with
  | nil => intro st i hi _; simp at hi
  | cons item rest ih =>
    intro st i hi hi2
    cases i with
    | zero =>
      simp only [batchHandler, runBatch, List.get]
      exact processItem_client_id now st item
    | succ j =>
      have hj : j < rest.length := by simpa using hi
      have hj2 : j < (batchHandler now (processItem now st item).2 rest).1.length := by
        unfold batchHandler
        rw [runBatch_length]
        exact hj
      have := ih (processItem now st item).2 j hj hj2
      simpa [batchHandler, runBatch] using this

/-! ## Claim C9 -/

/-- Claim C9: the resolver's delete operation is idempotent - every delete entry
yields status success regardless of whether the target exists (soft-deleting it
when it does, including when it is already soft-deleted), and a missing target
leaves the server store untouched. -/
theorem delete_idempotent (now : Nat) (srv : State) (item : SyncQueueItem)
    (hop : item.operation = Op.delete) :
    (processItem now srv item).1.status = ItemStatus.success ∧
    ((getTaskById srv.tasks item.task_id).isSome = true →
      (processItem now srv item).2.tasks =
        srv.tasks.map (fun t => if t.id == item.task_id then softDelete now t else t)) ∧
    ((getTaskById srv.tasks item.task_id).isSome = false →
      (processItem now srv item).2 = srv) := by
  unfold processItem
  rw [hop]
  cases hfind : getTaskById srv.tasks item.task_id with
  | none =>
    refine ⟨rfl, fun h => by simp at h, fun _ => rfl⟩
  | some lt =>
    refine ⟨rfl, ?_, ?_⟩
    · intro _
      show (deleteTask now item.task_id srv).2.tasks = _
      unfold deleteTask
      rw [hfind]
    · intro h
      simp at h

/-- A delete entry whose target is already soft-deleted, for the C9 witness. -/
def delTask : Task :=
  { id := "d", title := "t", description := "", completed := false, created_at := 1
    updated_at := 2, is_deleted := true, sync_status := SyncStatus.synced
    last_synced_at := none, server_id := none }

/-- Server store holding only the soft-deleted record, for the C9 witness. -/
def delServer : State := { tasks := [delTask], queue := [], fresh := 0 }

/-- Delete entry targeting the soft-deleted record, for the C9 witness. -/
def delItem : SyncQueueItem :=
  { id := "q", task_id := "d", operation := Op.delete, data := {}, created_at := 3
    retry_count := 0 }

/-- Witness for C9: deleting an already soft-deleted record returns success. -/
theorem delete_idempotent_witness :
    (processItem 9 delServer delItem).1.status = ItemStatus.success :=
  (delete_idempotent 9 delServer delItem rfl).1

/-! ## Claim C1 -/

/-- Claim C1 (amended): for an update entry whose target exists remotely, a
strictly greater client payload timestamp applies the update and returns
success, with the updated snapshot whenever the merged record is not
soft-deleted (a soft-deleted merged record yields success with no snapshot);
otherwise the resolver returns conflict with the unmodified remote record and
an unchanged store. -/
theorem resolver_lww (now : Nat) (srv : State) (item : SyncQueueItem) (lt : Task)
    (hop : item.operation = Op.update)
    (hfind : getTaskById srv.tasks item.task_id = some lt)
    (hnd : (srv.tasks.map (fun t => t.id)).Nodup) :
    (clientWins item.data lt.updated_at = true →
      (processItem now srv item).1.status = ItemStatus.success ∧
      (processItem now srv item).2.tasks =
        srv.tasks.map (fun t =>
          if t.id == item.task_id then applyPatch now item.data t else t) ∧
      (processItem now srv item).1.resolved_data =
        (if (applyPatch now item.data lt).is_deleted then none
         else some (applyPatch now item.data lt))) ∧
    (clientWins item.data lt.updated_at = false →
      (processItem now srv item).1.status = ItemStatus.conflict ∧
      (processItem now srv item).1.resolved_data = some lt ∧
      (processItem now srv item).2 = srv) := by
  constructor
  · intro hcw
    simp only [processItem, hop, hfind, hcw, if_true]
    unfold updateTask
    rw [hfind]
    refine ⟨by trivial, by trivial, ?_⟩
    exact getTask_map_update srv.tasks item.task_id (applyPatch now item.data)
      (fun t => rfl) lt hnd hfind
  · intro hcw
    simp only [processItem, hop, hfind, hcw, Bool.false_eq_true, if_false]
    exact ⟨by trivial, by trivial, by trivial⟩

/-- Remote record that is soft-deleted but present, for the C1 counterexample. -/
def lwwTask : Task :=
  { id := "a", title := "t", description := "", completed := false, created_at := 1
    updated_at := 5, is_deleted := true, sync_status := SyncStatus.synced
    last_synced_at := none, server_id := none }

/-- Server store for the C1 counterexample. -/
def lwwServer : State := { tasks := [lwwTask], queue := [], fresh := 0 }

/-- Update entry with a winning client timestamp, for the C1 counterexample. -/
def lwwItem : SyncQueueItem :=
  { id := "q", task_id := "a", operation := Op.update
    data := { updated_at := some 10 }, created_at := 9, retry_count := 0 }

/-- Counterexample for C1 as stated: the target exists remotely (soft-deleted)
and the client timestamp 10 beats the remote timestamp 5, yet the success
outcome carries no snapshot - the response does not hold the updated record,
although the update was applied to the store. -/
theorem resolver_lww_cex :
    getTaskById lwwServer.tasks "a" = some lwwTask ∧
    clientWins lwwItem.data lwwTask.updated_at = true ∧
    (processItem 20 lwwServer lwwItem).1.status = ItemStatus.success ∧
    (processItem 20 lwwServer lwwItem).1.resolved_data = none ∧
    getTaskById (processItem 20 lwwServer lwwItem).2.tasks "a"
      = some (applyPatch 20 lwwItem.data lwwTask) := by
  decide

/-- Remote record for the C1 witness (not deleted, newer than the client). -/
def lwwWTask : Task :=
  { id := "b", title := "t", description := "", completed := false, created_at := 1
    updated_at := 50, is_deleted := false, sync_status := SyncStatus.synced
    last_synced_at := none, server_id := none }

/-- Server store for the C1 witness. -/
def lwwWServer : State := { tasks := [lwwWTask], queue := [], fresh := 0 }

/-- Update entry with a stale client timestamp, for the C1 witness. -/
def lwwWItem : SyncQueueItem :=
  { id := "q", task_id := "b", operation := Op.update
    data := { updated_at := some 7 }, created_at := 9, retry_count := 0 }

/-- Witness for C1: a stale client update is rejected as a conflict. -/
theorem resolver_lww_witness :
    (processItem 60 lwwWServer lwwWItem).1.status = ItemStatus.conflict :=
  ((resolver_lww 60 lwwWServer lwwWItem lwwWTask rfl rfl (by decide)).2 (by decide)).1

/-! ## Claim C3 -/

/-- Claim C3 (amended): an update entry enqueued by the local mutation service
carries exactly the caller-supplied fields; for such an entry whose
caller-supplied fields omit `updated_at` and whose target exists remotely, the
resolver's comparison is never strictly greater, so it returns conflict with
the server snapshot and an unchanged server store - such an update never wins. -/
theorem client_update_conflict (cnow snow : Nat) (cst : State) (id : String)
    (updates : TaskPatch) (srv : State) (lt : Task) (entry : SyncQueueItem) (t0 : Task)
    (hloc : getTaskById cst.tasks id = some t0)
    (hnone : updates.updated_at = none)
    (hop : entry.operation = Op.update) (hdata : entry.data = updates)
    (htid : entry.task_id = id)
    (hsrv : getTaskById srv.tasks id = some lt) :
    (updateTask cnow id updates cst).2.queue = cst.queue ++
      [{ id := genId cst.fresh, task_id := id, operation := Op.update, data := updates
         created_at := cnow, retry_count := 0 }] ∧
    (processItem snow srv entry).1.status = ItemStatus.conflict ∧
    (processItem snow srv entry).1.resolved_data = some lt ∧
    (processItem snow srv entry).2 = srv := by
  have hcw : clientWins entry.data lt.updated_at = false := by
    rw [hdata]
    unfold clientWins
    rw [hnone]
  have hsrv' : getTaskById srv.tasks entry.task_id = some lt := by rw [htid]; exact hsrv
  constructor
  · unfold updateTask
    rw [hloc]
  · simp only [processItem, hop, hsrv', hcw, Bool.false_eq_true, if_false]
    exact ⟨by trivial, by trivial, by trivial⟩

/-- Local record for the C3 counterexample and witness. -/
def updTask : Task :=
  { id := "y", title := "t", description := "", completed := false, created_at := 1
    updated_at := 1, is_deleted := false, sync_status := SyncStatus.synced
    last_synced_at := none, server_id := none }

/-- Client store for the C3 counterexample. -/
def updClient : State := { tasks := [updTask], queue := [], fresh := 0 }

/-- A caller-supplied patch that includes `updated_at`, for the C3 counterexample. -/
def updPatch : TaskPatch := { updated_at := some 100 }

/-- The queue entry `updateTask` enqueues for that patch. -/
def updEntry : SyncQueueItem :=
  { id := genId 0, task_id := "y", operation := Op.update, data := updPatch
    created_at := 2, retry_count := 0 }

/-- Server store whose copy of the record is older, for the C3 counterexample. -/
def updServer : State :=
  { tasks := [{ updTask with title := "s" }], queue := [], fresh := 10 }

/-- Counterexample for C3 as stated: a caller may supply `updated_at` in the
fields; the enqueued update entry then carries it, and the resolver lets this
client-originated update of a remotely-existing record win with status success
rather than always returning conflict. -/
theorem client_update_conflict_cex :
    (updateTask 2 "y" updPatch updClient).2.queue = [updEntry] ∧
    updEntry.data.updated_at = some 100 ∧
    getTaskById updServer.tasks "y" = some { updTask with title := "s" } ∧
    (processItem 3 updServer updEntry).1.status = ItemStatus.success := by
  decide

/-- Client store for the C3 witness. -/
def updWClient : State := { tasks := [updTask], queue := [], fresh := 0 }

/-- An update entry whose payload omits `updated_at`, for the C3 witness. -/
def updWEntry : SyncQueueItem :=
  { id := genId 0, task_id := "y", operation := Op.update
    data := { title := some "B" }, created_at := 2, retry_count := 0 }

/-- Witness for C3: an update whose payload omits `updated_at` is resolved as a
conflict against the remotely-existing record. -/
theorem client_update_conflict_witness :
    (processItem 3 updServer updWEntry).1.status = ItemStatus.conflict :=
  (client_update_conflict 2 3 updWClient "y" { title := some "B" } updServer
    { updTask with title := "s" } updWEntry updTask rfl rfl rfl rfl rfl rfl).2.1

/-! ## Claim C10 -/

/-- Claim C10 (amended): `update(id, fields)` returns null with no side effects
when no record with the id exists (soft-deleted records are visible to the
lookup); when one exists, it merges the fields over the stored record, stamps
`updated_at` to now, forces `sync_status` to pending, enqueues an update entry
carrying exactly the caller-supplied delta, and returns the updated record when
the merged record is not soft-deleted - for a merged record left soft-deleted
it returns null even though the merge and the enqueue were applied. -/
theorem update_contract (now : Nat) (st : State) (id : String) (updates : TaskPatch) :
    (getTaskById st.tasks id = none → updateTask now id updates st = (none, st)) ∧
    (∀ t0, getTaskById st.tasks id = some t0 →
      (updateTask now id updates st).2.tasks =
        st.tasks.map (fun t => if t.id == id then applyPatch now updates t else t) ∧
      (updateTask now id updates st).2.queue = st.queue ++
        [{ id := genId st.fresh, task_id := id, operation := Op.update, data := updates
           created_at := now, retry_count := 0 }] ∧
      (applyPatch now updates t0).updated_at = now ∧
      (applyPatch now updates t0).sync_status = SyncStatus.pending ∧
      ((st.tasks.map (fun t => t.id)).Nodup →
        (updateTask now id updates st).1 =
          (if (applyPatch now updates t0).is_deleted then none
           else some (applyPatch now updates t0)))) := by
  constructor
  · intro h
    unfold updateTask
    rw [h]
  · intro t0 h
    unfold updateTask
    rw [h]
    refine ⟨rfl, rfl, rfl, rfl, ?_⟩
    intro hnd
    exact getTask_map_update st.tasks id (applyPatch now updates) (fun t => rfl) t0 hnd h

/-- A soft-deleted but existing record, for the C10 counterexample. -/
def nfTask : Task :=
  { id := "d", title := "t", description := "", completed := false, created_at := 0
    updated_at := 0, is_deleted := true, sync_status := SyncStatus.synced
    last_synced_at := none, server_id := none }

/-- Store holding only the soft-deleted record, for the C10 counterexample. -/
def nfState : State := { tasks := [nfTask], queue := [], fresh := 0 }

/-- Counterexample for C10 as stated: a record with the id exists (soft-deleted),
so the claim says the update does not fail with NotFound and returns the updated
record - yet the call returns null (the NotFound signal) while still enqueuing
the outbox entry. -/
theorem update_contract_cex :
    getTaskById nfState.tasks "d" = some nfTask ∧
    (updateTask 7 "d" { title := some "x" } nfState).1 = none ∧
    (updateTask 7 "d" { title := some "x" } nfState).2.queue.length = 1 := by
  decide

/-- A live record for the C10 witness. -/
def c10wTask : Task :=
  { id := "w", title := "old", description := "", completed := false, created_at := 0
    updated_at := 0, is_deleted := false, sync_status := SyncStatus.synced
    last_synced_at := none, server_id := none }

/-- Store for the C10 witness. -/
def c10wState : State := { tasks := [c10wTask], queue := [], fresh := 4 }

/-- Witness for C10: updating an existing live record enqueues exactly the
caller-supplied delta. -/
theorem update_contract_witness :
    (updateTask 9 "w" { title := some "new" } c10wState).2.queue = [] ++
      [{ id := genId 4, task_id := "w", operation := Op.update
         data := { title := some "new" }, created_at := 9, retry_count := 0 }] :=
  ((update_contract 9 c10wState "w" { title := some "new" }).2 c10wTask rfl).2.1

/-! ## Claim C4 -/

/-- Claim C4: an outbox entry that fails three times consecutively ends with the
entry still queued, its retry count at 3 and a permanent-failure error message,
and the corresponding record's `sync_status` set to error. -/
theorem retry_exhaustion (st : State) (qid m1 m2 m3 : String) (e : SyncQueueItem)
    (he : st.queue.find? (fun q => q.id == qid) = some e)
    (h0 : e.retry_count = 0) :
    ((failEntry (failEntry (failEntry st qid m1) qid m2) qid m3).queue.find?
        (fun q => q.id == qid)
      = some { e with
               retry_count := 3
               error_message := some ("Permanent failure: " ++ m3) }) ∧
    (∀ t ∈ (failEntry (failEntry (failEntry st qid m1) qid m2) qid m3).tasks,
      t.id = e.task_id → t.sync_status = SyncStatus.error) := by
  have h1 := failEntry_step st qid m1 e he
  have h2 := failEntry_step _ qid m2 _ h1
  have h3 := failEntry_step _ qid m3 _ h2
  have hb2 : (bumped (bumped e m1) m2).retry_count = 2 := by
    simp [bumped, bumpRow, h0]
  have hb2tid : (bumped (bumped e m1) m2).task_id = e.task_id := rfl
  constructor
  · rw [h3]
    rcases e with ⟨eid, etid, eop, edata, ecr, erc, eem⟩
    simp only [SyncQueueItem.mk.injEq] at h0 ⊢
    subst h0
    simp [bumped, bumpRow]
  · intro t ht htid
    rw [failEntry_of_find _ qid m3 _ h2] at ht
    rw [handleSyncError_tasks_perm _ _ _ (by rw [hb2])] at ht
    rw [List.mem_map] at ht
    obtain ⟨t', ht', heq⟩ := ht
    rw [hb2tid] at heq
    by_cases hcase : (t'.id == e.task_id) = true
    · rw [if_pos hcase] at heq
      rw [← heq]
    · rw [if_neg hcase] at heq
      subst heq
      exact absurd (by simpa using htid) (by simpa using hcase)

/-- Queue entry that has never been retried, for the C4 witness. -/
def rxEntry : SyncQueueItem :=
  { id := "q1", task_id := "r", operation := Op.update, data := {}, created_at := 1
    retry_count := 0 }

/-- Record tracked by the failing entry, for the C4 witness. -/
def rxTask : Task :=
  { id := "r", title := "t", description := "", completed := false, created_at := 0
    updated_at := 0, is_deleted := false, sync_status := SyncStatus.pending
    last_synced_at := none, server_id := none }

/-- Store for the C4 witness. -/
def rxState : State := { tasks := [rxTask], queue := [rxEntry], fresh := 0 }

/-- Witness for C4: after three consecutive failures the entry is still queued
with retry count 3 and a permanent-failure message. -/
theorem retry_exhaustion_witness :
    (failEntry (failEntry (failEntry rxState "q1" "a") "q1" "b") "q1" "c").queue.find?
        (fun q => q.id == "q1")
      = some { rxEntry with
               retry_count := 3
               error_message := some ("Permanent failure: " ++ "c") } :=
  (retry_exhaustion rxState "q1" "a" "b" "c" rxEntry rfl rfl).1

/-! ## Claim C6 -/

/-- Claim C6: a sync run loads all outbox entries ordered by `created_at`
ascending (a permutation of the stored queue), and the batches - processed
strictly sequentially - concatenate back to that load, so any two entries with
strictly increasing `created_at` are transmitted to the remote resolver in
enqueue order (an earlier timestamp is never transmitted after a later one). -/
theorem fifo_order (st : State) (batchSize : Nat) (hbs : 1 ≤ batchSize) :
    (chunks batchSize (getSyncQueueItems st)).flatten = getSyncQueueItems st ∧
    (getSyncQueueItems st).Perm st.queue ∧
    (∀ i j : Fin (getSyncQueueItems st).length,
      ((getSyncQueueItems st).get i).created_at
          < ((getSyncQueueItems st).get j).created_at →
      (i : Nat) < (j : Nat)) := by
  refine ⟨chunks_flatten _ _, sortByCreated_perm _, ?_⟩
  intro i j hlt
  by_contra hij
  have hle : (j : Nat) ≤ (i : Nat) := Nat.le_of_not_lt hij
  rcases Nat.eq_or_lt_of_le hle with heq | hjlt
  · have hij2 : i = j := Fin.ext heq.symm
    subst hij2
    exact Nat.lt_irrefl _ hlt
  · have hp := List.pairwise_iff_get.mp (sortByCreated_pairwise st.queue) j i hjlt
    have hp' : ((getSyncQueueItems st).get j).created_at
        ≤ ((getSyncQueueItems st).get i).created_at := hp
    omega

/-- Two out-of-order queue entries for the C6 witness. -/
def fifoE1 : SyncQueueItem :=
  { id := "qa", task_id := "x", operation := Op.create, data := {}, created_at := 1
    retry_count := 0 }

/-- Second entry for the same record, for the C6 witness. -/
def fifoE2 : SyncQueueItem :=
  { id := "qb", task_id := "x", operation := Op.update, data := {}, created_at := 2
    retry_count := 0 }

/-- Store whose queue is stored out of timestamp order, for the C6 witness. -/
def fifoState : State := { tasks := [], queue := [fifoE2, fifoE1], fresh := 0 }

/-- Witness for C6: with batch size 1 the transmitted batches concatenate to the
ordered load. -/
theorem fifo_order_witness :
    (chunks 1 (getSyncQueueItems fifoState)).flatten = getSyncQueueItems fifoState :=
  (fifo_order fifoState 1 (by decide)).1

/-! ## Claim C8 -/

/-- Claim C8: the batch handler yields exactly one outcome per submitted item;
each outcome of the concrete resolver carries the client-supplied record id as
`client_id`; and a failure while processing one item is caught and reported as
an error outcome for that item only (with its client id preserved), the
remaining items being processed from the same store. -/
theorem batch_outcomes :
    (∀ (p : State → SyncQueueItem → Except String (ProcessedItem × State))
       (st : State) (items : List SyncQueueItem),
      (runBatch p st items).1.length = items.length) ∧
    (∀ (now : Nat) (st : State) (items : List SyncQueueItem) (i : Nat)
       (hi : i < items.length) (hi2 : i < (batchHandler now st items).1.length),
      ((batchHandler now st items).1.get ⟨i, hi2⟩).client_id
        = (items.get ⟨i, hi⟩).task_id) ∧
    (∀ (p : State → SyncQueueItem → Except String (ProcessedItem × State))
       (st : State) (item : SyncQueueItem) (rest : List SyncQueueItem) (msg : String),
      p st item = Except.error msg →
      runBatch p st (item :: rest) =
        ({ client_id := item.task_id, server_id := "", status := ItemStatus.error
           resolved_data := none, error := some msg } :: (runBatch p st rest).1,
         (runBatch p st rest).2)) := by
  refine ⟨?_, ?_, ?_⟩
  · intro p st items
    exact runBatch_length p items st
  · intro now st items i hi hi2
    exact batchHandler_client_id now items st i hi hi2
  · intro p st item rest msg hp
    rcases hr : runBatch p st rest with ⟨outs, st2⟩
    simp [runBatch, hp, hr]

/-- A per-item processor that always fails, for the C8 witness. -/
def alwaysFailP : State → SyncQueueItem → Except String (ProcessedItem × State) :=
  fun _ _ => Except.error "boom"

/-- An arbitrary item for the C8 witness. -/
def c8Item : SyncQueueItem :=
  { id := "q", task_id := "x", operation := Op.create, data := {}, created_at := 1
    retry_count := 0 }

/-- Empty store for the C8 witness. -/
def c8State : State := { tasks := [], queue := [], fresh := 0 }

/-- Witness for C8: a thrown per-item error becomes an error outcome carrying
the client id, and the rest of the batch is still processed. -/
theorem batch_outcomes_witness :
    runBatch alwaysFailP c8State [c8Item] =
      ({ client_id := c8Item.task_id, server_id := "", status := ItemStatus.error
         resolved_data := none, error := some "boom" } :: (runBatch alwaysFailP c8State []).1,
       (runBatch alwaysFailP c8State []).2) :=
  batch_outcomes.2.2 alwaysFailP c8State c8Item [] "boom" rfl

/-! ## Claim C5 -/

/-- Claim C5: a transport-level failure on a batch makes the run treat every
entry of that batch as failed - each entry is retained in the outbox with its
retry count incremented by one through the retry handler - the run is not
aborted (it continues with the subsequent batches from the failed state), and
the run's sync result has success = false. -/
theorem transport_failure_batch {σ : Type} (transport : Transport σ) (now : Nat)
    (msg : String) (batch : List SyncQueueItem) (rest : List (List SyncQueueItem))
    (st : State) (srv : σ) (res : SyncResult)
    (hfail : transport srv batch = Except.error msg)
    (hne : batch ≠ [])
    (hnd : (batch.map (fun e => e.id)).Nodup)
    (hmem : ∀ e ∈ batch, st.queue.find? (fun q => q.id == e.id) = some e) :
    (syncBatches transport now (batch :: rest) st srv res
      = syncBatches transport now rest (failBatch now msg batch st res).1 srv
          (failBatch now msg batch st res).2) ∧
    (∀ e ∈ batch,
      (failBatch now msg batch st res).1.queue.find? (fun q => q.id == e.id)
        = some (bumped e msg)) ∧
    (finishResult (syncBatches transport now (batch :: rest) st srv res).1).success
      = false := by
  have hstep : syncBatches transport now (batch :: rest) st srv res
      = syncBatches transport now rest (failBatch now msg batch st res).1 srv
          (failBatch now msg batch st res).2 := by
    rcases hfb : failBatch now msg batch st res with ⟨st', res'⟩
    simp [syncBatches, hfail, hfb]
  refine ⟨hstep, ?_, ?_⟩
  · intro e he
    unfold failBatch
    exact failEntries_retain now msg batch st _ hnd hmem e he
  · rw [hstep]
    have h1 : (failBatch now msg batch st res).2.failed_items
        = res.failed_items + batch.length := by
      unfold failBatch
      rw [failEntries_failed]
    have h2 := syncBatches_failed_le transport now rest
      (failBatch now msg batch st res).1 srv (failBatch now msg batch st res).2
    have h3 : 1 ≤ batch.length := by
      cases batch with
      | nil => exact absurd rfl hne
      | cons a l => simp
    have hne0 : (syncBatches transport now rest (failBatch now msg batch st res).1 srv
        (failBatch now msg batch st res).2).1.failed_items ≠ 0 := by omega
    unfold finishResult
    simpa using hne0

/-- Entries of the batch whose transmission fails, for the C5 witness. -/
def tfE1 : SyncQueueItem :=
  { id := "qa", task_id := "x", operation := Op.create, data := {}, created_at := 1
    retry_count := 0 }

/-- Second entry of the failing batch, for the C5 witness. -/
def tfE2 : SyncQueueItem :=
  { id := "qb", task_id := "y", operation := Op.update, data := {}, created_at := 2
    retry_count := 0 }

/-- Client store holding both entries, for the C5 witness. -/
def tfState : State := { tasks := [], queue := [tfE1, tfE2], fresh := 0 }

/-- A transport that always fails at the network level, for the C5 witness. -/
def downTransport : Transport Unit := fun _ _ => Except.error "network unreachable"

/-- Witness for C5: after the failed batch both entries are retained with their
retry counts bumped, and the finished result is unsuccessful. -/
theorem transport_failure_batch_witness :
    ((failBatch 9 "network unreachable" [tfE1, tfE2] tfState emptyResult).1.queue.find?
        (fun q => q.id == tfE1.id) = some (bumped tfE1 "network unreachable")) ∧
    (finishResult (syncBatches downTransport 9 [[tfE1, tfE2]] tfState () emptyResult).1).success
      = false := by
  have h := transport_failure_batch downTransport 9 "network unreachable" [tfE1, tfE2] []
    tfState () emptyResult rfl (by decide) (by decide) (by decide)
  exact ⟨h.2.1 tfE1 (by decide), h.2.2⟩

/-! ## Claim C2 -/

/-- Empty client store before the C2 scenario. -/
def demoState0 : State := { tasks := [], queue := [], fresh := 0 }

/-- C2 scenario, step 1: create the record with title A at time 1. -/
def demoAfterCreate : Task × State := createTask 1 { title := some "A" } demoState0

/-- C2 scenario, step 2: update the record's title to B at time 2, before any sync. -/
def demoAfterUpdate : Option Task × State :=
  updateTask 2 "u0" { title := some "B" } demoAfterCreate.2

/-- Fresh remote store (its uuid supply disjoint from the client's). -/
def demoServer0 : State := { tasks := [], queue := [], fresh := 50 }

/-- C2 scenario, step 3: one sync run with a fully successful exchange against
the concrete batch handler. -/
def demoSync : SyncResult × State × State :=
  sync (transportOk 4) 50 3 demoAfterUpdate.2 demoServer0

/-- Claim C2 fails on the code: after create (title A) then update (title B)
and one sync run whose exchange succeeds, the outbox still holds the update
entry (the engine resolves each outcome against the first queue entry with the
same record id, so the second entry is never deleted) and the local record's
title has been overwritten back to A by the create outcome's server snapshot -
the claim requires an empty outbox and a record reflecting the update. -/
theorem create_update_sync_bug :
    demoAfterUpdate.2.queue.map (fun q => q.operation) = [Op.create, Op.update] ∧
    (getTaskById demoAfterUpdate.2.tasks "u0").map (fun t => t.title) = some "B" ∧
    demoSync.1 = { success := true, synced_items := 2, failed_items := 0, errors := [] } ∧
    demoSync.2.1.queue.map (fun q => q.operation) = [Op.update] ∧
    (getTaskById demoSync.2.1.tasks "u0").map (fun t => t.title) = some "A" := by
  decide

/-! ## Claim C7 -/

/-- The record both queue entries of the C7 scenario refer to. -/
def dupTask : Task :=
  { id := "x", title := "t", description := "", completed := false, created_at := 0
    updated_at := 0, is_deleted := false, sync_status := SyncStatus.pending
    last_synced_at := none, server_id := none }

/-- First outbox entry for the record, for the C7 scenario. -/
def dupE1 : SyncQueueItem :=
  { id := "q1", task_id := "x", operation := Op.create, data := {}, created_at := 1
    retry_count := 0 }

/-- Second outbox entry for the same record, for the C7 scenario. -/
def dupE2 : SyncQueueItem :=
  { id := "q2", task_id := "x", operation := Op.update, data := {}, created_at := 2
    retry_count := 0 }

/-- Client store with two entries for one record, for the C7 scenario. -/
def dupState : State := { tasks := [dupTask], queue := [dupE1, dupE2], fresh := 0 }

/-- A response marking the first entry's outcome `error` and the second's
`success` (the remote handler reports per-item errors through its catch). -/
def dupResp : List ProcessedItem :=
  [{ client_id := "x", server_id := "", status := ItemStatus.error, error := some "boom" },
   { client_id := "x", server_id := "x", status := ItemStatus.success }]

/-- One sync run receiving that response. -/
def dupSync : SyncResult × State × Unit :=
  sync (fun s _ => Except.ok ({ processed_items := dupResp }, s)) 50 5 dupState ()

/-- Claim C7 fails on the code: the first entry is transmitted first and its
per-item outcome is `error`, yet after the run that entry is gone from the
outbox - the success outcome of the second entry is resolved against the first
queue entry with the same record id and deletes it - so an entry is deleted on
a path other than its own confirmed success or conflict. -/
theorem outbox_delete_bug :
    getSyncQueueItems dupState = [dupE1, dupE2] ∧
    dupResp.head?.map (fun p => p.status) = some ItemStatus.error ∧
    dupState.queue.find? (fun q => q.id == "q1") = some dupE1 ∧
    dupSync.2.1.queue.map (fun q => q.id) = ["q2"] := by
  decide

end TaskSync
